import Mathlib

/-
Verification of the canvas-mcp-http gateway and submission tools.

The development shallowly embeds:
  - the HTTP/SSE gateway of src/index.ts (the revision that keeps a
    session table: the transports map, the GET /sse registration, the
    POST /message handler and the onclose cleanup callback);
  - the configuration block of src/index.ts (environment reading and
    the startup validation of the API token);
  - the get-submission-documents tool handler of src/tools/submissions.ts
    (registerSubmissionTools): presentation-layer redaction, URL masking,
    and the inline-or-placeholder encoding policy for downloaded files;
  - the data model of src/types.ts.

CanvasClient.getSubmissionDocuments lives in canvasClient.ts, which is not
part of the provided sources; its behavior is modelled from the spec where
a claim depends on it (see the doc comments starting with
"Modelled from the spec").
-/

/-- JSON-like values as emitted by the gateway handlers in src/index.ts. -/
inductive Json where
| nul : Json
| str : String → Json
| num : Int → Json
| obj : List (String × Json) → Json

/-- Looks up a top-level field of a JSON object; none on non-objects or
absent keys. -/
def Json.getField : Json → String → Option Json
| Json.obj fields, key => (fields.find? (fun p => p.1 == key)).map (fun p => p.2)
| _, _ => none

/-- HTTP response as produced by an express handler: status code plus the
JSON body written with res.json. -/
structure HttpResponse where
status : Nat
body : Json

/-- Transport Session as stored in the transports map of src/index.ts.
handleResult models the outcome of transport.handlePostMessage (SDK code
outside this repository): ok with the response it writes to the wire, or
error when it raises an exception. -/
structure Transport where
sessionId : String
handleResult : Except String HttpResponse

/-- Session table: models the JavaScript Map from session identifier to
transport declared in startServer (const transports = new Map). A Map
never holds two entries for one key. -/
abbrev Registry := List (String × Transport)

/-- Models transports.get(sessionId). -/
def registryGet (m : Registry) (sid : String) : Option Transport :=
(m.find? (fun p => p.1 == sid)).map (fun p => p.2)

/-- Models transports.delete(sessionId): the entry with that key, when
present, is removed. -/
def registryDelete (m : Registry) (sid : String) : Registry :=
m.filter (fun p => p.1 != sid)

/-- Models transports.set(transport.sessionId, transport) performed by the
GET /sse handler: replaces an existing entry for that key or appends a new
one. -/
def registrySet (m : Registry) (t : Transport) : Registry :=
if (m.find? (fun p => p.1 == t.sessionId)).isSome then
  m.map (fun p => if p.1 == t.sessionId then (t.sessionId, t) else p)
else m ++ [(t.sessionId, t)]

/-- Models the onclose cleanup callback installed on every transport by the
GET /sse handler: it deletes that transport's session record from the
table. -/
def oncloseHandler (m : Registry) (t : Transport) : Registry :=
registryDelete m t.sessionId

/-- Models the POST /message handler of startServer: look the session
identifier up in the transports map; answer 404 with body
(error: Session not found) when absent; otherwise delegate to
transport.handlePostMessage, answering 500 with body
(error: Internal server error) when it raises. The handler never writes to
the transports map, so the registry component of the result is always the
input registry. -/
def postMessageHandler (m : Registry) (sid : String) : HttpResponse × Registry :=
match registryGet m sid with
| none => (⟨404, Json.obj [("error", Json.str "Session not found")]⟩, m)
| some t =>
  match t.handleResult with
  | Except.ok r => (r, m)
  | Except.error _ => (⟨500, Json.obj [("error", Json.str "Internal server error")]⟩, m)

/-- HTTP methods relevant to the route registrations in startServer. -/
inductive Method where
| GET : Method
| POST : Method
| DELETE : Method
deriving DecidableEq

/-- One route registration on the express app. -/
structure Route where
method : Method
path : String
deriving DecidableEq

/-- Routes registered on the express app in HTTP/SSE mode, in registration
order: app.get(/health), app.get(/sse), app.post(/message). No other
route is registered in startServer. -/
def registeredRoutes : List Route :=
[⟨Method.GET, "/health"⟩, ⟨Method.GET, "/sse"⟩, ⟨Method.POST, "/message"⟩]

/-- Tests whether a route registration uses the DELETE method. -/
def isDeleteRoute (r : Route) : Bool :=
decide (r.method = Method.DELETE)

/-- Environment variables read by the configuration block of src/index.ts. -/
structure Env where
CANVAS_API_TOKEN : Option String
CANVAS_BASE_URL : Option String

/-- Models the JavaScript expression (v || dflt) on an environment value:
an unset variable and the empty string are both falsy and yield the
default. -/
def jsOrDefault : Option String → String → String
| none, d => d
| some s, d => if s = "" then d else s

/-- Configuration record, from the CanvasConfig interface of src/types.ts. -/
structure CanvasConfig where
apiToken : String
baseUrl : String
deriving DecidableEq

/-- Models the config object literal of src/index.ts: the token defaults to
the empty string, the base URL to the fixed fhict address. -/
def mkConfig (env : Env) : CanvasConfig :=
⟨jsOrDefault env.CANVAS_API_TOKEN "",
 jsOrDefault env.CANVAS_BASE_URL "https://fhict.instructure.com"⟩

/-- Outcome of module initialization: either the fatal configuration error
path (console.error followed by process.exit(1), reached before any server
or session object is created) or startup proceeding with the validated
configuration. -/
inductive StartupOutcome where
| configError : String → StartupOutcome
| serverStarted : CanvasConfig → StartupOutcome
deriving DecidableEq

/-- Models the top-level configuration validation of src/index.ts: read the
config from the environment, then exit with the error message when the
token is falsy (the empty string), otherwise continue startup with that
config. In the source this check runs at module load, before startServer
is invoked and before any transport or session exists. -/
def startup (env : Env) : StartupOutcome :=
let config := mkConfig env
if config.apiToken = "" then
  StartupOutcome.configError "Error: CANVAS_API_TOKEN environment variable is required"
else
  StartupOutcome.serverStarted config

/-- SubmissionAttachment record, from src/types.ts (CanvasFile fields plus
the optional owning submission); an absent filename is modelled as the
empty string, matching the falsy test the tool handler applies. -/
structure SubmissionAttachment where
id : String
filename : String
display_name : String
content_type : String
size : Nat
url : String
created_at : String
deriving DecidableEq

/-- Submission record, from src/types.ts. -/
structure Submission where
id : String
user_id : String
assignment_id : String
body : Option String
submission_type : Option String
workflow_state : String
grade : Option String
score : Option Int
submitted_at : Option String
attachments : Option (List SubmissionAttachment)
attempt : Option Nat
deriving DecidableEq

/-- DownloadedFile record, from src/types.ts: raw data and its base64
encoding are both optional, as is the per-file error description. -/
structure DownloadedFile where
id : String
filename : String
contentType : Option String
size : Nat
data : Option String
dataBase64 : Option String
error : Option String
deriving DecidableEq

/-- SubmissionDocumentResult record, from src/types.ts: the aggregator
output consumed by the get-submission-documents tool handler. -/
structure SubmissionDocumentResult where
submission : Submission
attachments : List SubmissionAttachment
textSubmission : Option String
submissionType : Option String
downloadedFiles : List DownloadedFile
deriving DecidableEq

/-- Tests whether the character list pat occurs at the start of s. -/
def charsStartWith : List Char → List Char → Bool
| _, [] => true
| [], _ :: _ => false
| c :: cs, d :: ds => c == d && charsStartWith cs ds

/-- Tests whether the character list pat occurs anywhere in s. -/
def charsContain : List Char → List Char → Bool
| [], pat => pat.isEmpty
| c :: cs, pat => charsStartWith (c :: cs) pat || charsContain cs pat

/-- Models the JavaScript String.prototype.includes. -/
def jsIncludes (s pat : String) : Bool :=
charsContain s.toList pat.toList

/-- Models the optional chaining in file.contentType?.includes: an absent
content type is falsy, so the test fails. -/
def jsIncludesOpt : Option String → String → Bool
| none, _ => false
| some s, pat => jsIncludes s pat

/-- Submission summary as formatted by the get-submission-documents tool
handler of src/tools/submissions.ts. -/
structure SubmissionView where
id : String
user_id : String
assignment_id : String
submission_type : Option String
workflow_state : String
submitted_at : Option String
grade : Option String
score : Option Int
attempt : Option Nat
deriving DecidableEq

/-- Attachment entry as formatted by the get-submission-documents tool
handler. -/
structure AttachmentView where
id : String
filename : String
content_type : String
size : Nat
url : String
created_at : String
deriving DecidableEq

/-- Downloaded-file entry as formatted by the get-submission-documents tool
handler. -/
structure DownloadedFileView where
id : String
filename : String
content_type : Option String
size : Nat
has_content : Bool
content_base64 : Option String
error : Option String
deriving DecidableEq

/-- Models the attachment mapping of the tool handler: the filename falls
back to the display name when falsy, and the url field is the marker
string [DOWNLOADED_BELOW] when downloadFiles is true, else the upstream
retrieval URL unchanged. -/
def viewAttachment (downloadFiles : Bool) (a : SubmissionAttachment) : AttachmentView :=
⟨a.id,
 if a.filename = "" then a.display_name else a.filename,
 a.content_type, a.size,
 if downloadFiles then "[DOWNLOADED_BELOW]" else a.url,
 a.created_at⟩

/-- Models the downloaded-file mapping of the tool handler, including the
encoding policy: dataBase64 is inlined when the content type contains
"text" or the size is strictly below 1024 * 100 bytes; otherwise the
placeholder marker [FILE_TOO_LARGE_FOR_DISPLAY] replaces it. -/
def viewDownloadedFile (f : DownloadedFile) : DownloadedFileView :=
⟨f.id, f.filename, f.contentType, f.size,
 f.data.isSome,
 if jsIncludesOpt f.contentType "text" || decide (f.size < 1024 * 100) then f.dataBase64
 else some "[FILE_TOO_LARGE_FOR_DISPLAY]",
 f.error⟩

/-- Response object assembled by the get-submission-documents tool
handler. -/
structure ToolResponse where
submission : SubmissionView
text_content : Option String
attachments : List AttachmentView
downloaded_files : List DownloadedFileView
deriving DecidableEq

/-- Modelled from the spec: CanvasClient.getSubmissionDocuments, whose
implementation file canvasClient.ts is not among the provided sources
(only its type declarations in src/types.ts and its caller in
src/tools/submissions.ts are). Following section 4.4 of the spec: the text
body is present only for text-entry submissions; the attachment list comes
directly from the submission record (empty, not null, when absent); with
downloadFiles false no binary fetch happens and the downloaded list is
empty; with downloadFiles true each attachment gets one independent binary
fetch; and the result record always carries the true user id, redaction
being left to the presentation-layer caller, so the anonymous flag does
not alter the record. The second component of the result counts the
binary-fetch invocations performed. -/
def getSubmissionDocuments (sub : Submission)
    (fetchBinary : SubmissionAttachment → DownloadedFile)
    (downloadFiles : Bool) (anonymous : Bool) :
    SubmissionDocumentResult × Nat :=
let attachments := sub.attachments.getD []
let textSubmission :=
  if sub.submission_type = some "online_text_entry" then sub.body else none
let downloaded := if downloadFiles then attachments.map fetchBinary else []
let _ := anonymous
(⟨sub, attachments, textSubmission, sub.submission_type, downloaded⟩,
 if downloadFiles then attachments.length else 0)

/-- Models the get-submission-documents tool handler of
src/tools/submissions.ts: call the aggregator, then format the response,
applying the presentation-layer redaction of the user id, the URL masking
on attachments, and the downloaded-file encoding policy. Returns the
formatted response together with the aggregator result and the
binary-fetch count, so theorems can speak about the aggregator's own
output as well. -/
def getSubmissionDocumentsTool (sub : Submission)
    (fetchBinary : SubmissionAttachment → DownloadedFile)
    (downloadFiles anonymous : Bool) :
    ToolResponse × SubmissionDocumentResult × Nat :=
let r := getSubmissionDocuments sub fetchBinary downloadFiles anonymous
let result := r.1
(⟨⟨result.submission.id,
   if anonymous then "[ANONYMIZED]" else result.submission.user_id,
   result.submission.assignment_id,
   result.submission.submission_type,
   result.submission.workflow_state,
   result.submission.submitted_at,
   result.submission.grade,
   result.submission.score,
   result.submission.attempt⟩,
  result.textSubmission,
  result.attachments.map (viewAttachment downloadFiles),
  if downloadFiles then result.downloadedFiles.map viewDownloadedFile else []⟩,
 result, r.2)

/-- Concrete non-text file of exactly 1024 * 100 bytes, for the encoding
boundary analysis. -/
def c2File : DownloadedFile :=
⟨"f1", "report.pdf", some "application/pdf", 1024 * 100,
 some "rawbytes", some "QUJD", none⟩

/-- Concrete text-typed file of 500000 bytes whose raw data and base64
encoding differ, for the text-delivery analysis. -/
def c4File : DownloadedFile :=
⟨"f3", "notes.txt", some "text/plain", 500000,
 some "Hello", some "SGVsbG8=", none⟩

/-- Concrete one-session table whose transport raises on message
handling, for the internal-error analysis. -/
def c5Registry : Registry :=
[("s1", ⟨"s1", Except.error "boom"⟩)]

/-- Concrete two-session table for exercising the release properties. -/
def c9Registry : Registry :=
[("a", ⟨"a", Except.ok ⟨200, Json.nul⟩⟩),
 ("b", ⟨"b", Except.ok ⟨200, Json.nul⟩⟩)]

theorem find?_filter_of_imp {α : Type} (l : List α) (p q : α → Bool)
    (h : ∀ a, q a = true → p a = true) :
    (l.filter p).find? q = l.find? q := by
  induction l with
  | nil => rfl
  | cons a tl ih =>
    rw [List.filter_cons]
    by_cases hp : p a = true
    · simp only [hp, if_true]
      rw [List.find?_cons, List.find?_cons]
      cases hq : q a
      · exact ih
      · rfl
    · have hq : q a = false := by
        cases hq : q a
        · rfl
        · exact absurd (h a hq) hp
      simp only [Bool.not_eq_true] at hp
      simp only [hp, Bool.false_eq_true, if_false]
      rw [ih, List.find?_cons, hq]

theorem find?_filter_of_excl {α : Type} (l : List α) (p q : α → Bool)
    (h : ∀ a, q a = true → p a = false) :
    (l.filter p).find? q = none := by
  induction l with
  | nil => rfl
  | cons a tl ih =>
    rw [List.filter_cons]
    by_cases hp : p a = true
    · have hq : q a = false := by
        cases hq : q a
        · rfl
        · rw [h a hq] at hp; exact absurd hp (by simp)
      simp only [hp, if_true]
      rw [List.find?_cons, hq]
      exact ih
    · simp only [Bool.not_eq_true] at hp
      simp only [hp, Bool.false_eq_true, if_false]
      exact ih

theorem registryGet_delete_self (m : Registry) (sid : String) :
    registryGet (registryDelete m sid) sid = none := by
  unfold registryGet registryDelete
  rw [find?_filter_of_excl]
  · rfl
  · intro a ha
    have ha1 : a.1 = sid := by simpa using ha
    simp [ha1]

theorem registryGet_delete_other (m : Registry) (sid other : String)
    (h : other ≠ sid) :
    registryGet (registryDelete m sid) other = registryGet m other := by
  unfold registryGet registryDelete
  rw [find?_filter_of_imp]
  intro a ha
  have ha1 : a.1 = other := by simpa using ha
  simp [ha1, h]

theorem registryDelete_idem (m : Registry) (sid : String) :
    registryDelete (registryDelete m sid) sid = registryDelete m sid := by
  simp [registryDelete, List.filter_filter]

/-- Claim C1: a POST to the message endpoint whose session identifier is
not present in the live session table is answered with 404 and the body
(error: Session not found), and the session table is returned unchanged,
so no fresh session record results from such a request. -/
theorem c1_unknown_session_404 (m : Registry) (sid : String)
    (h : registryGet m sid = none) :
    postMessageHandler m sid =
      (⟨404, Json.obj [("error", Json.str "Session not found")]⟩, m) := by
  simp [postMessageHandler, h]

theorem c1_unknown_session_404_witness :
    postMessageHandler [] "never-issued" =
      (⟨404, Json.obj [("error", Json.str "Session not found")]⟩, []) :=
  c1_unknown_session_404 [] "never-issued" rfl

/-- Claim C9: releasing a session identifier is idempotent (a second
delete of the same identifier is a no-op), it leaves the record of every
other identifier untouched, and a message bearing the released identifier
is afterwards answered as unknown with a 404. -/
theorem c9_release_idempotent (m : Registry) (sid other : String)
    (h : other ≠ sid) :
    registryDelete (registryDelete m sid) sid = registryDelete m sid ∧
    registryGet (registryDelete m sid) other = registryGet m other ∧
    postMessageHandler (registryDelete m sid) sid =
      (⟨404, Json.obj [("error", Json.str "Session not found")]⟩,
       registryDelete m sid) := by
  refine ⟨registryDelete_idem m sid, registryGet_delete_other m sid other h, ?_⟩
  simp [postMessageHandler, registryGet_delete_self m sid]

theorem c9_release_idempotent_witness :
    registryDelete (registryDelete c9Registry "a") "a" = registryDelete c9Registry "a" ∧
    registryGet (registryDelete c9Registry "a") "b" = registryGet c9Registry "b" ∧
    postMessageHandler (registryDelete c9Registry "a") "a" =
      (⟨404, Json.obj [("error", Json.str "Session not found")]⟩,
       registryDelete c9Registry "a") :=
  c9_release_idempotent c9Registry "a" "b" (by decide)

/-- Claim C3 counterexample: no route registered on the HTTP application
uses the DELETE method, so no registered route handles an explicit
session-termination request; the claim that the protocol surface accepts
such a DELETE request is false of the code. -/
theorem c3_no_delete_route_counterexample :
    registeredRoutes.filter isDeleteRoute = [] := by decide

/-- Claim C3 amended: the HTTP application registers exactly GET /health,
GET /sse and POST /message, with no DELETE route; the release of a session
record is instead triggered by the close callback installed on each
transport, which removes exactly that session record from the table. -/
theorem c3_termination_via_onclose (m : Registry) (t : Transport) :
    registeredRoutes =
      [⟨Method.GET, "/health"⟩, ⟨Method.GET, "/sse"⟩, ⟨Method.POST, "/message"⟩] ∧
    registryGet (oncloseHandler m t) t.sessionId = none :=
  ⟨rfl, registryGet_delete_self m t.sessionId⟩

/-- Claim C5 counterexample: with a registered transport whose message
handling raises, the handler does answer status 500, but the JSON body it
sends has no jsonrpc field (and no id field) — it is the single-field
object (error: Internal server error) — so the response is not the claimed
JSON-RPC envelope with jsonrpc 2.0, error code and message, and null id. -/
theorem c5_body_shape_counterexample :
    (postMessageHandler c5Registry "s1").1.status = 500 ∧
    ((postMessageHandler c5Registry "s1").1.body.getField "jsonrpc").isNone = true ∧
    ((postMessageHandler c5Registry "s1").1.body.getField "id").isNone = true ∧
    ((postMessageHandler c5Registry "s1").1.body.getField "error").isSome = true := by
  refine ⟨rfl, ?_, ?_, ?_⟩ <;> rfl

/-- Claim C5 amended: when handling a message for an existing session
raises an unexpected exception, the gateway catches it and answers status
500 with the plain JSON body (error: Internal server error) — not a
JSON-RPC envelope — and the session table is returned unchanged, so the
transport and its registry entry survive and subsequent messages on the
same session still resolve the same transport. -/
theorem c5_internal_error_500 (m : Registry) (sid : String) (t : Transport)
    (e : String) (hget : registryGet m sid = some t)
    (herr : t.handleResult = Except.error e) :
    postMessageHandler m sid =
      (⟨500, Json.obj [("error", Json.str "Internal server error")]⟩, m) ∧
    registryGet (postMessageHandler m sid).2 sid = some t := by
  constructor
  · simp [postMessageHandler, hget, herr]
  · simp [postMessageHandler, hget, herr]

theorem c5_internal_error_500_witness :
    postMessageHandler c5Registry "s1" =
      (⟨500, Json.obj [("error", Json.str "Internal server error")]⟩, c5Registry) ∧
    registryGet (postMessageHandler c5Registry "s1").2 "s1" =
      some ⟨"s1", Except.error "boom"⟩ :=
  c5_internal_error_500 c5Registry "s1" ⟨"s1", Except.error "boom"⟩ "boom" rfl rfl

/-- Claim C8: when the access-credential environment value is absent (or
empty, which JavaScript treats the same as absent), startup reports the
configuration error and stops before any server or session is created;
and when the token is present but the base-address variable is absent,
the base URL defaults to the fixed fhict address and startup proceeds. -/
theorem c8_startup_config (env : Env) :
    ((env.CANVAS_API_TOKEN = none ∨ env.CANVAS_API_TOKEN = some "") →
      startup env =
        StartupOutcome.configError
          "Error: CANVAS_API_TOKEN environment variable is required") ∧
    (∀ tok, env.CANVAS_API_TOKEN = some tok → tok ≠ "" →
      env.CANVAS_BASE_URL = none →
      startup env =
        StartupOutcome.serverStarted ⟨tok, "https://fhict.instructure.com"⟩) := by
  constructor
  · intro h
    rcases h with h | h <;> simp [startup, mkConfig, jsOrDefault, h]
  · intro tok htok hne hurl
    simp [startup, mkConfig, jsOrDefault, htok, hne, hurl]

theorem c8_startup_config_witness :
    startup ⟨none, none⟩ =
      StartupOutcome.configError
        "Error: CANVAS_API_TOKEN environment variable is required" ∧
    startup ⟨some "tok123", none⟩ =
      StartupOutcome.serverStarted ⟨"tok123", "https://fhict.instructure.com"⟩ :=
  ⟨(c8_startup_config ⟨none, none⟩).1 (Or.inl rfl),
   (c8_startup_config ⟨some "tok123", none⟩).2 "tok123" rfl (by decide) rfl⟩

/-- Claim C2 counterexample: a non-text file of exactly 1024 * 100 bytes
is not inlined: its content field carries the placeholder marker rather
than its base64 data, so the size threshold is an open boundary, not the
closed boundary the claim states. -/
theorem c2_boundary_counterexample :
    (viewDownloadedFile c2File).content_base64 =
      some "[FILE_TOO_LARGE_FOR_DISPLAY]" ∧
    (viewDownloadedFile c2File).content_base64 ≠ c2File.dataBase64 := by
  refine ⟨rfl, ?_⟩
  decide

/-- Claim C2 amended: for a downloaded file whose content type does not
contain the text indicator, the inline threshold is an open boundary: only
a file strictly smaller than 1024 * 100 bytes has its base64 content
inlined, and a file of exactly 1024 * 100 bytes or more is replaced with
the placeholder marker. -/
theorem c2_open_boundary (f : DownloadedFile)
    (hnt : jsIncludesOpt f.contentType "text" = false) :
    (f.size < 1024 * 100 →
      (viewDownloadedFile f).content_base64 = f.dataBase64) ∧
    (1024 * 100 ≤ f.size →
      (viewDownloadedFile f).content_base64 =
        some "[FILE_TOO_LARGE_FOR_DISPLAY]") := by
  constructor
  · intro h
    simp [viewDownloadedFile, hnt, h]
  · intro h
    simp [viewDownloadedFile, hnt, Nat.not_lt.mpr h]

theorem c2_open_boundary_witness :
    (viewDownloadedFile
      ⟨"f2", "a.bin", some "application/octet-stream", 5,
       some "x", some "eA==", none⟩).content_base64 = some "eA==" ∧
    (viewDownloadedFile c2File).content_base64 =
      some "[FILE_TOO_LARGE_FOR_DISPLAY]" :=
  ⟨(c2_open_boundary
      ⟨"f2", "a.bin", some "application/octet-stream", 5,
       some "x", some "eA==", none⟩ (by decide)).1 (by decide),
   (c2_open_boundary c2File (by decide)).2 (by decide)⟩

/-- Claim C4 counterexample: a text-typed file of 500000 bytes is indeed
inlined despite its size, but the inlined value is the base64-encoded
dataBase64 field placed in content_base64, which differs from the raw text
data, so text-typed content is delivered as a binary-safe encoded string,
not as text. -/
theorem c4_text_as_base64_counterexample :
    (viewDownloadedFile c4File).content_base64 = c4File.dataBase64 ∧
    c4File.dataBase64 ≠ c4File.data := by
  refine ⟨rfl, ?_⟩
  decide

/-- Claim C4 amended: for a downloaded file whose content type contains
the text indicator, the content is inlined regardless of size, but as the
base64-encoded dataBase64 value in the content_base64 field, not decoded
to text. -/
theorem c4_text_inlined_any_size (f : DownloadedFile)
    (ht : jsIncludesOpt f.contentType "text" = true) :
    (viewDownloadedFile f).content_base64 = f.dataBase64 := by
  simp [viewDownloadedFile, ht]

theorem c4_text_inlined_any_size_witness :
    (viewDownloadedFile c4File).content_base64 = c4File.dataBase64 :=
  c4_text_inlined_any_size c4File (by decide)

/-- Claim C6: the formatted submission summary carries the fixed redaction
marker as user id when anonymize is true and the true upstream user id
when it is false, and in both cases the aggregator's own output record
retains the true user id. -/
theorem c6_redaction (sub : Submission)
    (fetchBinary : SubmissionAttachment → DownloadedFile) (df : Bool) :
    (getSubmissionDocumentsTool sub fetchBinary df true).1.submission.user_id =
      "[ANONYMIZED]" ∧
    (getSubmissionDocumentsTool sub fetchBinary df false).1.submission.user_id =
      sub.user_id ∧
    (∀ anon : Bool,
      (getSubmissionDocumentsTool sub fetchBinary df anon).2.1.submission.user_id =
        sub.user_id) :=
  ⟨rfl, rfl, fun _ => rfl⟩

/-- Claim C7: with downloadFiles false the tool performs zero binary
fetches, its downloaded_files field is the empty list, and each attachment
entry keeps its original retrieval URL. -/
theorem c7_no_download (sub : Submission)
    (fetchBinary : SubmissionAttachment → DownloadedFile) (anon : Bool) :
    (getSubmissionDocumentsTool sub fetchBinary false anon).2.2 = 0 ∧
    (getSubmissionDocumentsTool sub fetchBinary false anon).1.downloaded_files = [] ∧
    (getSubmissionDocumentsTool sub fetchBinary false anon).1.attachments.map
        AttachmentView.url =
      (sub.attachments.getD []).map SubmissionAttachment.url := by
  refine ⟨rfl, rfl, ?_⟩
  simp [getSubmissionDocumentsTool, getSubmissionDocuments, viewAttachment,
    List.map_map, Function.comp]

/-- Claim C10: with downloadFiles true every attachment entry's url field
in the formatted response is the marker string [DOWNLOADED_BELOW], so the
upstream retrieval URL never appears there. -/
theorem c10_url_masked (sub : Submission)
    (fetchBinary : SubmissionAttachment → DownloadedFile) (anon : Bool) :
    ((getSubmissionDocumentsTool sub fetchBinary true anon).1.attachments.all
      (fun v => v.url == "[DOWNLOADED_BELOW]")) = true := by
  simp [getSubmissionDocumentsTool, getSubmissionDocuments, viewAttachment,
    List.all_map, List.all_eq_true, Function.comp]
